import Mathlib

/-!
Verification of the URDF exporter of `src/python/dtack/utils/urdf_exporter.py`
(`URDFExporter`). The exporter walks an in-memory robot specification (as
loaded by `yaml.safe_load`) and emits a URDF document line by line.

The shallow embedding below mirrors the source function by function:
`generate_inertial` embeds `_generate_inertial` (lines 95-114),
`visual_geometry_lines` and `generate_visual` embed `_generate_visual`
(lines 116-155), `axis_lines`, `limit_lines` and `joint_block` embed the
joint part of `_generate_segment_urdf` (lines 74-85), `generate_segment_urdf`
embeds the whole of it (lines 61-93), and `urdf_lines` / `generate_urdf`
embed `_generate_urdf` (lines 37-59).  `exportDoc` stands for `export`
(lines 26-35): it returns the text that `export` writes to the output file,
`none` when generation raises a Python exception before the write.

Numbers are modelled exactly: a YAML scalar is an integer, a finite float
(carried as the exact rational it denotes, ignoring floating-point
representation error), or one of the non-finite floats nan, inf, -inf.
Python raising an exception (KeyError / IndexError / TypeError on a
subscript) is modelled as `Option.none`; fields the code reads
unconditionally are structure fields.
-/

namespace Urdf

/-- A numeric scalar as `yaml.safe_load` produces it and as the f-strings of
the exporter consume it: a Python int, a finite Python float (its exact
value), or a non-finite float. -/
inductive PyNum where
  | int (n : ℤ)
  | float (q : ℚ)
  | nan
  | inf
  | ninf

/-- A YAML value sitting in one of the numeric slots the exporter subscripts
or formats (`size`, `axis`, `limits`, `visual_rgba`): a scalar or a
sequence. -/
inductive YamlVal where
  | num (x : PyNum)
  | list (xs : List YamlVal)

/-- Largest exponent e (up to the fuel) such that p^e divides n. -/
def stripCount : Nat → Nat → Nat → Nat
  | 0, _, _ => 0
  | fuel + 1, p, n => if 2 ≤ p ∧ n ≠ 0 ∧ n % p = 0 then stripCount fuel p (n / p) + 1 else 0

/-- Left-pad a digit string with zeros to length k. -/
def padTo (k : Nat) (s : String) : String :=
  if s.length < k then String.mk (List.replicate (k - s.length) '0') ++ s else s

/-- Python `str`/`repr` of a finite float, for the decimal-representable,
moderate-magnitude values this code base handles: minimal decimal digits,
always at least one digit after the point (`0.4`, `5.0`, `-0.5`).  Values
whose denominator is not of the form 2^a * 5^b (not exactly representable
in decimal) fall back to a fraction rendering; such values cannot arise
from parsed binary floats. -/
def floatRepr (q : ℚ) : String :=
  let d := q.den
  let k := max 1 (max (stripCount d 2 d) (stripCount d 5 d))
  if d ∣ 10 ^ k then
    let n := q.num * ((10 ^ k / d : ℕ) : ℤ)
    let s := padTo (k + 1) (toString n.natAbs)
    (if q.num < 0 then "-" else "") ++ s.take (s.length - k) ++ "." ++ s.drop (s.length - k)
  else
    toString q.num ++ "/" ++ toString d

/-- Python `str` of a scalar: ints print without a point, floats with one,
non-finite floats as `nan` / `inf` / `-inf`. -/
def fmtNum : PyNum → String
  | .int n => toString n
  | .float q => floatRepr q
  | .nan => "nan"
  | .inf => "inf"
  | .ninf => "-inf"

mutual
/-- Python `str` of a value interpolated into an f-string: scalars via
`fmtNum`, sequences via the Python list repr `[a, b, c]`. -/
def fmtVal : YamlVal → String
  | .num x => fmtNum x
  | .list xs => "[" ++ String.intercalate ", " (fmtValList xs) ++ "]"
def fmtValList : List YamlVal → List String
  | [] => []
  | v :: vs => fmtVal v :: fmtValList vs
end

/-- Python subscript `v[i]` on a spec value: defined for sequences with `i`
in range; a scalar subscript (TypeError) or an out-of-range index
(IndexError) raises, modelled as `none`. -/
def yIndex : YamlVal → Nat → Option YamlVal
  | .list xs, i => xs.get? i
  | .num _, _ => none

/-- Exact doubling of a finite float value (spelled via `mkRat` so that it
evaluates by kernel reduction; `qDouble_eq` identifies it with `2 * q`). -/
def qDouble (q : ℚ) : ℚ := mkRat (2 * q.num) q.den

theorem qDouble_eq (q : ℚ) : qDouble q = 2 * q := by
  unfold qDouble
  rw [Rat.mkRat_eq_div]
  push_cast
  rw [mul_div_assoc, Rat.num_div_den]

/-- Python `x * 2` on a scalar: exact doubling of ints and finite floats;
non-finite floats stay non-finite. -/
def numMul2 : PyNum → PyNum
  | .int n => .int (2 * n)
  | .float q => .float (qDouble q)
  | .nan => .nan
  | .inf => .inf
  | .ninf => .ninf

/-- Python `v * 2` on a spec value: scalars double, sequences concatenate
with themselves. -/
def valMul2 : YamlVal → YamlVal
  | .num x => .num (numMul2 x)
  | .list xs => .list (xs ++ xs)

/-- The six inertia-tensor entries read by `_generate_inertial`
(`body["inertia"]["ixx"]` etc., lines 107-112). -/
structure Inertia where
  ixx : PyNum
  ixy : PyNum
  ixz : PyNum
  iyy : PyNum
  iyz : PyNum
  izz : PyNum

/-- The `geometry` mapping of a body as `_generate_visual` reads it: all
three keys are read with `.get` and defaults (lines 127, 130, 135, 140,
145, 150), so each is optional. -/
structure Geometry where
  gtype : Option String
  size : Option YamlVal
  visual_rgba : Option YamlVal

/-- The `joint` mapping of a segment: `joint["type"]` is read
unconditionally (line 75), `axis` and `limits` are guarded by key-presence
tests (lines 78, 81). -/
structure Joint where
  jtype : String
  axis : Option YamlVal
  limits : Option YamlVal

/-- A body (the root or a segment's body part): `name`, `mass` and the
inertia entries are read unconditionally, `geometry` via `.get` with a
`{}` default (line 126). -/
structure Body where
  name : String
  mass : PyNum
  inertia : Inertia
  geometry : Option Geometry

/-- A segment entry of the spec: a body plus its `joint` mapping.  The
source YAML may also declare a `parent` name for the segment; the exporter
never reads that key (see `_generate_urdf` line 55), but it is kept here so
that statements can speak about the declared parent. -/
structure Segment extends Body where
  joint : Joint
  parent : Option String

/-- The loaded spec as `_generate_urdf` consumes it: `spec["root"]`
(line 47) and `spec.get("segments", [])` (line 54). -/
structure RobotSpec where
  root : Body
  segments : List Segment

/-- `_generate_inertial` (lines 95-114): emits mass and the six tensor
entries verbatim through the f-strings; it performs no validation and has
no failure path other than a missing key (excluded by the `Body` shape). -/
def generate_inertial (body : Body) : List String :=
  ["    <inertial>",
   "      <mass value=\"" ++ fmtNum body.mass ++ "\"/>",
   "      <inertia",
   "        ixx=\"" ++ fmtNum body.inertia.ixx ++ "\"",
   "        ixy=\"" ++ fmtNum body.inertia.ixy ++ "\"",
   "        ixz=\"" ++ fmtNum body.inertia.ixz ++ "\"",
   "        iyy=\"" ++ fmtNum body.inertia.iyy ++ "\"",
   "        iyz=\"" ++ fmtNum body.inertia.iyz ++ "\"",
   "        izz=\"" ++ fmtNum body.inertia.izz ++ "\"/>",
   "    </inertial>"]

/-- The empty mapping `{}` used as the geometry default (line 126): every
`.get` on it falls back to its default. -/
def defaultGeometry : Geometry := ⟨none, none, none⟩

/-- The geometry-element part of `_generate_visual` (lines 127-148): the
`geom_type` dispatch with its per-variant size defaults.  An unrecognized
type emits no geometry element at all (no `else` branch in the source). -/
def visual_geometry_lines (geom : Geometry) : Option (List String) :=
  let gt := geom.gtype.getD "box"
  if gt = "box" then
    let size := geom.size.getD (.list [.num (.float (mkRat 1 10)), .num (.float (mkRat 1 10)), .num (.float (mkRat 1 10))])
    match yIndex size 0, yIndex size 1, yIndex size 2 with
    | some s0, some s1, some s2 =>
        some ["      <geometry>",
              "        <box size=\"" ++ fmtVal s0 ++ " " ++ fmtVal s1 ++ " " ++ fmtVal s2 ++ "\"/>",
              "      </geometry>"]
    | _, _, _ => none
  else if gt = "sphere" then
    let size := geom.size.getD (.num (.float (mkRat 1 10)))
    some ["      <geometry>",
          "        <sphere radius=\"" ++ fmtVal size ++ "\"/>",
          "      </geometry>"]
  else if gt = "cylinder" then
    let size := geom.size.getD (.list [.num (.float (mkRat 1 10)), .num (.float (mkRat 1 10))])
    match yIndex size 0, yIndex size 1 with
    | some s0, some s1 =>
        some ["      <geometry>",
              "        <cylinder radius=\"" ++ fmtVal s0 ++ "\" length=\"" ++ fmtVal (valMul2 s1) ++ "\"/>",
              "      </geometry>"]
    | _, _ => none
  else if gt = "capsule" then
    let size := geom.size.getD (.list [.num (.float (mkRat 1 10)), .num (.float (mkRat 1 10))])
    match yIndex size 0, yIndex size 1 with
    | some s0, some s1 =>
        some ["      <geometry>",
              "        <cylinder radius=\"" ++ fmtVal s0 ++ "\" length=\"" ++ fmtVal (valMul2 s1) ++ "\"/>",
              "      </geometry>"]
    | _, _ => none
  else
    some []

/-- `_generate_visual` (lines 116-155): visual wrapper, geometry dispatch,
then the unconditional material block with the `visual_rgba` default and
the `mat_` name prefix (lines 150-153). -/
def generate_visual (body : Body) : Option (List String) :=
  let geom := body.geometry.getD defaultGeometry
  match visual_geometry_lines geom with
  | none => none
  | some gl =>
    let rgba := geom.visual_rgba.getD
      (.list [.num (.float (mkRat 1 2)), .num (.float (mkRat 1 2)), .num (.float (mkRat 1 2)), .num (.float (mkRat 1 1))])
    match yIndex rgba 0, yIndex rgba 1, yIndex rgba 2, yIndex rgba 3 with
    | some r0, some r1, some r2, some r3 =>
        some ("    <visual>" :: gl ++
              ["      <material name=\"mat_" ++ body.name ++ "\">",
               "        <color rgba=\"" ++ fmtVal r0 ++ " " ++ fmtVal r1 ++ " " ++ fmtVal r2
                 ++ " " ++ fmtVal r3 ++ "\"/>",
               "      </material>",
               "    </visual>"])
    | _, _, _, _ => none

/-- The axis line emitted at line 80 of the source. -/
def axisLine (a0 a1 a2 : YamlVal) : String :=
  "    <axis xyz=\"" ++ fmtVal a0 ++ " " ++ fmtVal a1 ++ " " ++ fmtVal a2 ++ "\"/>"

/-- The limit line emitted at line 84 of the source. -/
def limitLine (l0 l1 : YamlVal) : String :=
  "    <limit lower=\"" ++ fmtVal l0 ++ "\" upper=\"" ++ fmtVal l1 ++ "\"/>"

/-- Lines 78-80 of the source: the axis sub-element when `axis` is present;
subscripting a malformed axis raises (`none`). -/
def axis_lines (axis : Option YamlVal) : Option (List String) :=
  match axis with
  | none => some []
  | some a =>
    match yIndex a 0, yIndex a 1, yIndex a 2 with
    | some a0, some a1, some a2 => some [axisLine a0 a1 a2]
    | _, _, _ => none

/-- Lines 81-84 of the source: the limit sub-element when `limits` is
present, is a list, and has exactly two entries; any other shape is
silently skipped. -/
def limit_lines (limits : Option YamlVal) : List String :=
  match limits with
  | some (.list [l0, l1]) => [limitLine l0 l1]
  | _ => []

/-- The joint part of `_generate_segment_urdf` (lines 74-85). -/
def joint_block (segment : Segment) (parent_name : String) : Option (List String) :=
  match axis_lines segment.joint.axis with
  | none => none
  | some axL =>
    some (["  <joint name=\"" ++ parent_name ++ "_to_" ++ segment.name ++ "\" type=\""
             ++ segment.joint.jtype ++ "\">",
           "    <parent link=\"" ++ parent_name ++ "\"/>",
           "    <child link=\"" ++ segment.name ++ "\"/>"]
          ++ axL ++ limit_lines segment.joint.limits ++ ["  </joint>"])

/-- `_generate_segment_urdf` (lines 61-93): the joint block followed by the
segment's link block. -/
def generate_segment_urdf (segment : Segment) (parent_name : String) : Option (List String) :=
  match joint_block segment parent_name with
  | none => none
  | some jb =>
    match generate_visual segment.toBody with
    | none => none
    | some vis =>
        some (jb ++ ["  <link name=\"" ++ segment.name ++ "\">"]
                 ++ generate_inertial segment.toBody ++ vis ++ ["  </link>"])

/-- The loop of `_generate_urdf` lines 54-55: every segment is generated
with `root["name"]` as its parent, left to right; the first exception
aborts the export. -/
def segments_urdf : List Segment → String → Option (List String)
  | [], _ => some []
  | seg :: rest, rootName =>
    match generate_segment_urdf seg rootName, segments_urdf rest rootName with
    | some l, some ls => some (l ++ ls)
    | _, _ => none

/-- `_generate_urdf` (lines 37-59) before the final join: header, fixed
robot wrapper, comment, root link (inertial + visual), the segments, and
the closing tag. -/
def urdf_lines (spec : RobotSpec) : Option (List String) :=
  match generate_visual spec.root, segments_urdf spec.segments spec.root.name with
  | some rootVis, some segLs =>
      some (["<?xml version=\"1.0\"?>",
             "<robot name=\"golfer\">",
             "  <!-- Generated from canonical YAML specification -->",
             "  <link name=\"" ++ spec.root.name ++ "\">"]
            ++ generate_inertial spec.root ++ rootVis ++ ["  </link>"]
            ++ segLs ++ ["</robot>"])
  | _, _ => none

/-- `_generate_urdf` line 58: the newline join of the generated lines. -/
def generate_urdf (spec : RobotSpec) : Option String :=
  (urdf_lines spec).map (String.intercalate "\n")

/-- `export` (lines 26-35): the text written to the output file, `none`
when generation raises before `write_text` runs (in which case no file is
produced). -/
def exportDoc (spec : RobotSpec) : Option String :=
  generate_urdf spec

/-- Modelled from the spec: escaping of one character for the five reserved
markup characters of section 4.4 (the exporter itself contains no such
escaping). -/
def escChar (c : Char) : String :=
  if c = '&' then "&amp;"
  else if c = '<' then "&lt;"
  else if c = '>' then "&gt;"
  else if c = '\"' then "&quot;"
  else if c.toNat = 39 then "&apos;"
  else String.mk [c]

/-- Modelled from the spec: escaping of a free-text attribute value for the
five reserved markup characters. -/
def xmlEscape (s : String) : String :=
  String.join (s.data.map escChar)

/-- An all-zero inertia tensor (integer zeros, as YAML `0` loads). -/
def zeroI : Inertia := ⟨.int 0, .int 0, .int 0, .int 0, .int 0, .int 0⟩

/-- Spec with a two-level declared tree: root `base`, segment `arm` with
declared parent `base`, segment `hand` with declared parent `arm`. -/
def spec1 : RobotSpec :=
  ⟨⟨"base", .int 5, zeroI, none⟩,
   [⟨⟨"arm", .int 1, zeroI, none⟩,
     ⟨"revolute", some (.list [.num (.int 0), .num (.int 0), .num (.int 1)]), none⟩,
     some "base"⟩,
    ⟨⟨"hand", .int 1, zeroI, none⟩, ⟨"fixed", none, none⟩, some "arm"⟩]⟩

/-- Spec whose root name contains a reserved markup character. -/
def spec2 : RobotSpec := ⟨⟨"a<b", .int 1, zeroI, none⟩, []⟩

/-- Spec with a segment whose declared parent names no body in the spec. -/
def spec3 : RobotSpec :=
  ⟨⟨"base", .int 1, zeroI, none⟩,
   [⟨⟨"orphan", .int 1, zeroI, none⟩, ⟨"fixed", none, none⟩, some "ghost"⟩]⟩

/-- A body with non-finite mass and non-finite inertia entries. -/
def badBody4 : Body :=
  ⟨"blob", .nan, ⟨.inf, .int 0, .int 0, .ninf, .int 0, .float (mkRat 1 2)⟩, none⟩

/-- Sanity check of the float formatter against Python repr. -/
theorem floatRepr_sanity :
    floatRepr (mkRat 2 5) = "0.4" ∧ floatRepr (mkRat 1 20) = "0.05" ∧
    floatRepr (mkRat 1 1) = "1.0" ∧ floatRepr (mkRat (-1) 2) = "-0.5" := by
  decide

/-- Sanity check of the scalar and sequence formatters. -/
theorem fmtVal_sanity :
    fmtNum (.int 5) = "5" ∧
    fmtVal (.list [.num (.int 0), .num (.float (mkRat 1 10))]) = "[0, 0.1]" := by
  decide

/-- C1: the claim says each segment's emitted joint names the segment's
declared parent body as its parent link.  The code always passes
`root["name"]` as the parent (line 55): in `spec1` the segment `hand`
declares parent `arm`, yet its joint is named `base_to_hand` and its parent
link is `base`; no joint references `arm` as a parent at all.  The export
succeeds, so the star topology is produced silently. -/
theorem c1_declared_parent_ignored :
    spec1.segments.map Segment.parent = [some "base", some "arm"] ∧
    (exportDoc spec1).isSome = true ∧
    ((urdf_lines spec1).getD []).contains "  <joint name=\"base_to_hand\" type=\"fixed\">" = true ∧
    ((urdf_lines spec1).getD []).count "    <parent link=\"base\"/>" = 2 ∧
    ((urdf_lines spec1).getD []).contains "    <parent link=\"arm\"/>" = false := by
  decide

/-- C2: the claim says names are escaped for the five reserved markup
characters before being embedded in an attribute.  The code interpolates
names verbatim (lines 48, 75-77, 88, 151): the root name `a<b` is emitted
raw in the link element, although its escaped form differs. -/
theorem c2_names_not_escaped :
    ((urdf_lines spec2).getD []).get? 3 = some "  <link name=\"a<b\">" ∧
    xmlEscape "a<b" = "a&lt;b" ∧
    ("a<b" : String) ≠ "a&lt;b" := by
  decide

/-- C3: the claim says a segment whose declared parent matches no earlier
body makes the export fail with `SpecError::UnknownParent` and produce no
file.  The code performs no parent resolution whatsoever (there is no
`SpecError` anywhere in the module): `spec3`'s segment declares the
nonexistent parent `ghost`, yet the export succeeds and attaches the
segment to the root. -/
theorem c3_unknown_parent_not_rejected :
    spec3.segments.map Segment.parent = [some "ghost"] ∧
    (spec3.root.name :: spec3.segments.map (fun s => s.name)).contains "ghost" = false ∧
    (exportDoc spec3).isSome = true ∧
    ((urdf_lines spec3).getD []).contains "    <parent link=\"base\"/>" = true := by
  decide

/-- C4: the claim says the inertial generator fails with
`SpecError::MalformedValue` on a non-finite mass or tensor entry.
`_generate_inertial` is a total emitter with no validation: on a body with
`mass = nan`, `ixx = inf`, `iyy = -inf` it emits the values verbatim. -/
theorem c4_nonfinite_emitted :
    generate_inertial badBody4 =
      ["    <inertial>",
       "      <mass value=\"nan\"/>",
       "      <inertia",
       "        ixx=\"inf\"",
       "        ixy=\"0\"",
       "        ixz=\"0\"",
       "        iyy=\"-inf\"",
       "        iyz=\"0\"",
       "        izz=\"0.5\"/>",
       "    </inertial>"] := by
  decide

/-- A well-formed `visual_rgba` slot: absent (so the default applies) or a
sequence with at least four entries, so the four subscripts of line 152
succeed. -/
def rgbaOK (g : Geometry) : Prop :=
  g.visual_rgba = none ∨
    ∃ r0 r1 r2 r3 rest, g.visual_rgba = some (.list (r0 :: r1 :: r2 :: r3 :: rest))

/-- C5: for every geometry of variant cylinder or capsule with stored size
[radius r, half-length h], the emitted element is a cylinder whose radius
attribute is the stored radius and whose length attribute is exactly 2*h. -/
theorem c5_cylinder_capsule_doubles_halflength (body : Body) (g : Geometry) (r h : ℚ)
    (hg : body.geometry = some g)
    (ht : g.gtype = some "cylinder" ∨ g.gtype = some "capsule")
    (hs : g.size = some (.list [.num (.float r), .num (.float h)]))
    (hr : rgbaOK g) :
    ∃ c, generate_visual body = some
      ["    <visual>",
       "      <geometry>",
       "        <cylinder radius=\"" ++ floatRepr r ++ "\" length=\"" ++ floatRepr (2 * h) ++ "\"/>",
       "      </geometry>",
       "      <material name=\"mat_" ++ body.name ++ "\">",
       c,
       "      </material>",
       "    </visual>"] := by
  have hone : visual_geometry_lines g = some
      ["      <geometry>",
       "        <cylinder radius=\"" ++ floatRepr r ++ "\" length=\"" ++ floatRepr (2 * h) ++ "\"/>",
       "      </geometry>"] := by
    rcases ht with ht | ht <;>
      simp [visual_geometry_lines, ht, hs, yIndex, valMul2, numMul2, fmtVal, fmtNum, qDouble_eq]
  rcases hr with hr | ⟨r0, r1, r2, r3, rest, hr⟩
  · exact ⟨"        <color rgba=\"" ++ fmtVal (.num (.float (mkRat 1 2))) ++ " "
        ++ fmtVal (.num (.float (mkRat 1 2))) ++ " " ++ fmtVal (.num (.float (mkRat 1 2)))
        ++ " " ++ fmtVal (.num (.float (mkRat 1 1))) ++ "\"/>",
      by simp [generate_visual, hg, hone, hr, yIndex]⟩
  · exact ⟨"        <color rgba=\"" ++ fmtVal r0 ++ " " ++ fmtVal r1 ++ " " ++ fmtVal r2
        ++ " " ++ fmtVal r3 ++ "\"/>",
      by simp [generate_visual, hg, hone, hr, yIndex]⟩

/-- A capsule geometry of size [0.05, 0.2] and the body carrying it. -/
def capGeom : Geometry :=
  ⟨some "capsule", some (.list [.num (.float (mkRat 1 20)), .num (.float (mkRat 1 5))]), none⟩

def capBody : Body := ⟨"shaft", .int 1, zeroI, some capGeom⟩

/-- Witness for C5: the capsule of size [0.05, 0.2] yields a cylinder with
radius 0.05 and length 0.4. -/
theorem c5_witness :
    ∃ c, generate_visual capBody = some
      ["    <visual>",
       "      <geometry>",
       "        <cylinder radius=\"0.05\" length=\"0.4\"/>",
       "      </geometry>",
       "      <material name=\"mat_shaft\">",
       c,
       "      </material>",
       "    </visual>"] := by
  obtain ⟨c, hc⟩ := c5_cylinder_capsule_doubles_halflength capBody capGeom
    (mkRat 1 20) (mkRat 1 5) rfl (Or.inr rfl) rfl (Or.inl rfl)
  refine ⟨c, ?_⟩
  rw [hc, show (2 : ℚ) * mkRat 1 5 = qDouble (mkRat 1 5) from (qDouble_eq _).symm]
  have h1 : floatRepr (mkRat 1 20) = "0.05" := by decide
  have h2 : floatRepr (qDouble (mkRat 1 5)) = "0.4" := by decide
  rw [h1, h2]
  rfl

theorem axisLine_ne_joint_open (a0 a1 a2 : YamlVal) (p n t : String) :
    axisLine a0 a1 a2 ≠
      "  <joint name=\"" ++ p ++ "_to_" ++ n ++ "\" type=\"" ++ t ++ "\">" := by
  intro h
  have hd := congrArg String.data h
  simp [axisLine, String.data_append] at hd

theorem axisLine_ne_parent_line (a0 a1 a2 : YamlVal) (p : String) :
    axisLine a0 a1 a2 ≠ "    <parent link=\"" ++ p ++ "\"/>" := by
  intro h
  have hd := congrArg String.data h
  simp [axisLine, String.data_append] at hd

theorem axisLine_ne_child_line (a0 a1 a2 : YamlVal) (n : String) :
    axisLine a0 a1 a2 ≠ "    <child link=\"" ++ n ++ "\"/>" := by
  intro h
  have hd := congrArg String.data h
  simp [axisLine, String.data_append] at hd

theorem axisLine_ne_joint_close (a0 a1 a2 : YamlVal) :
    axisLine a0 a1 a2 ≠ "  </joint>" := by
  intro h
  have hd := congrArg String.data h
  simp [axisLine, String.data_append] at hd

theorem axisLine_ne_limitLine (a0 a1 a2 l0 l1 : YamlVal) :
    axisLine a0 a1 a2 ≠ limitLine l0 l1 := by
  intro h
  have hd := congrArg String.data h
  simp [axisLine, limitLine, String.data_append] at hd

theorem limitLine_ne_joint_open (l0 l1 : YamlVal) (p n t : String) :
    limitLine l0 l1 ≠
      "  <joint name=\"" ++ p ++ "_to_" ++ n ++ "\" type=\"" ++ t ++ "\">" := by
  intro h
  have hd := congrArg String.data h
  simp [limitLine, String.data_append] at hd

theorem limitLine_ne_parent_line (l0 l1 : YamlVal) (p : String) :
    limitLine l0 l1 ≠ "    <parent link=\"" ++ p ++ "\"/>" := by
  intro h
  have hd := congrArg String.data h
  simp [limitLine, String.data_append] at hd

theorem limitLine_ne_child_line (l0 l1 : YamlVal) (n : String) :
    limitLine l0 l1 ≠ "    <child link=\"" ++ n ++ "\"/>" := by
  intro h
  have hd := congrArg String.data h
  simp [limitLine, String.data_append] at hd

theorem limitLine_ne_joint_close (l0 l1 : YamlVal) :
    limitLine l0 l1 ≠ "  </joint>" := by
  intro h
  have hd := congrArg String.data h
  simp [limitLine, String.data_append] at hd

/-- `limit_lines` emits either nothing or exactly one limit line, the latter
exactly when `limits` is a two-element sequence. -/
theorem limit_lines_cases (lim : Option YamlVal) :
    limit_lines lim = [] ∨
      ∃ l0 l1, lim = some (.list [l0, l1]) ∧ limit_lines lim = [limitLine l0 l1] := by
  rcases lim with _ | v
  · exact Or.inl rfl
  rcases v with x | xs
  · exact Or.inl rfl
  rcases xs with _ | ⟨a, _ | ⟨b, _ | ⟨c, t⟩⟩⟩
  · exact Or.inl rfl
  · exact Or.inl rfl
  · exact Or.inr ⟨a, b, rfl, rfl⟩
  · exact Or.inl rfl

theorem axisLine_notin_limit_lines (a0 a1 a2 : YamlVal) (lim : Option YamlVal) :
    axisLine a0 a1 a2 ∉ limit_lines lim := by
  rcases limit_lines_cases lim with h | ⟨l0, l1, _, h⟩ <;> rw [h] <;> simp
  exact axisLine_ne_limitLine a0 a1 a2 l0 l1

/-- C6: the joint generator emits an axis sub-element iff the joint's
`axis` is present (with the stored values, in x, y, z order), and a limit
sub-element iff `limits` is present and is exactly a two-element sequence;
a `limits` value of any other shape is silently ignored, the block still
being generated. -/
theorem c6_axis_and_limit_emission (segment : Segment) (parent_name : String)
    (ha : segment.joint.axis = none ∨
          ∃ a0 a1 a2, segment.joint.axis = some (.list [a0, a1, a2])) :
    ∃ lines, joint_block segment parent_name = some lines ∧
      (∀ a0 a1 a2, segment.joint.axis = some (.list [a0, a1, a2]) →
        axisLine a0 a1 a2 ∈ lines) ∧
      ((∃ a0 a1 a2, axisLine a0 a1 a2 ∈ lines) ↔ segment.joint.axis.isSome = true) ∧
      (∀ l0 l1, segment.joint.limits = some (.list [l0, l1]) → limitLine l0 l1 ∈ lines) ∧
      ((∃ l0 l1, limitLine l0 l1 ∈ lines) ↔
        ∃ l0 l1, segment.joint.limits = some (.list [l0, l1])) := by
  rcases ha with ha | ⟨a0, a1, a2, ha⟩
  · refine ⟨["  <joint name=\"" ++ parent_name ++ "_to_" ++ segment.name ++ "\" type=\""
        ++ segment.joint.jtype ++ "\">",
      "    <parent link=\"" ++ parent_name ++ "\"/>",
      "    <child link=\"" ++ segment.name ++ "\"/>"]
      ++ limit_lines segment.joint.limits ++ ["  </joint>"], ?_, ?_, ?_, ?_, ?_⟩
    · simp [joint_block, axis_lines, ha]
    · intro b0 b1 b2 hb
      rw [ha] at hb
      cases hb
    · rw [ha]
      simp only [Option.isSome_none, Bool.false_eq_true, iff_false]
      rintro ⟨b0, b1, b2, hm⟩
      simp only [List.append_assoc, List.cons_append, List.nil_append, List.mem_cons,
        List.mem_append, List.mem_singleton] at hm
      rcases hm with h | h | h | h | h | h
      · exact axisLine_ne_joint_open b0 b1 b2 _ _ _ h
      · exact axisLine_ne_parent_line b0 b1 b2 _ h
      · exact axisLine_ne_child_line b0 b1 b2 _ h
      · exact axisLine_notin_limit_lines b0 b1 b2 _ h
      · exact axisLine_ne_joint_close b0 b1 b2 h
      · exact List.not_mem_nil _ h
    · intro l0 l1 hl
      rw [hl]
      simp [limit_lines]
    · constructor
      · rintro ⟨l0, l1, hm⟩
        rcases limit_lines_cases segment.joint.limits with hc | ⟨m0, m1, hshape, _⟩
        · rw [hc] at hm
          simp only [List.append_nil, List.cons_append, List.nil_append, List.mem_cons,
            List.mem_singleton, List.not_mem_nil, or_false] at hm
          rcases hm with h | h | h | h
          · exact absurd h (limitLine_ne_joint_open l0 l1 _ _ _)
          · exact absurd h (limitLine_ne_parent_line l0 l1 _)
          · exact absurd h (limitLine_ne_child_line l0 l1 _)
          · exact absurd h (limitLine_ne_joint_close l0 l1)
        · exact ⟨m0, m1, hshape⟩
      · rintro ⟨l0, l1, hl⟩
        refine ⟨l0, l1, ?_⟩
        rw [hl]
        simp [limit_lines]
  · refine ⟨["  <joint name=\"" ++ parent_name ++ "_to_" ++ segment.name ++ "\" type=\""
        ++ segment.joint.jtype ++ "\">",
      "    <parent link=\"" ++ parent_name ++ "\"/>",
      "    <child link=\"" ++ segment.name ++ "\"/>"]
      ++ [axisLine a0 a1 a2] ++ limit_lines segment.joint.limits ++ ["  </joint>"],
      ?_, ?_, ?_, ?_, ?_⟩
    · simp [joint_block, axis_lines, ha, yIndex]
    · intro b0 b1 b2 hb
      rw [ha] at hb
      simp only [Option.some.injEq, YamlVal.list.injEq, List.cons.injEq, and_true] at hb
      obtain ⟨rfl, rfl, rfl⟩ := hb
      simp
    · rw [ha]
      simp only [Option.isSome_some, iff_true]
      exact ⟨a0, a1, a2, by simp⟩
    · intro l0 l1 hl
      rw [hl]
      simp [limit_lines]
    · constructor
      · rintro ⟨l0, l1, hm⟩
        rcases limit_lines_cases segment.joint.limits with hc | ⟨m0, m1, hshape, _⟩
        · rw [hc] at hm
          simp only [List.append_nil, List.append_assoc, List.cons_append, List.nil_append,
            List.mem_cons, List.mem_singleton, List.not_mem_nil, or_false] at hm
          rcases hm with h | h | h | h | h
          · exact absurd h (limitLine_ne_joint_open l0 l1 _ _ _)
          · exact absurd h (limitLine_ne_parent_line l0 l1 _)
          · exact absurd h (limitLine_ne_child_line l0 l1 _)
          · exact absurd (h.symm) (axisLine_ne_limitLine a0 a1 a2 l0 l1)
          · exact absurd h (limitLine_ne_joint_close l0 l1)
        · exact ⟨m0, m1, hshape⟩
      · rintro ⟨l0, l1, hl⟩
        refine ⟨l0, l1, ?_⟩
        rw [hl]
        simp [limit_lines]

/-- A segment with a three-entry axis and a two-entry limits pair. -/
def wSeg : Segment :=
  ⟨⟨"arm", .int 1, zeroI, none⟩,
   ⟨"revolute", some (.list [.num (.int 0), .num (.int 0), .num (.int 1)]),
    some (.list [.num (.float (mkRat (-1) 2)), .num (.float (mkRat 1 2))])⟩,
   some "base"⟩

/-- Witness for C6 at a concrete segment with axis [0, 0, 1] and limits
[-0.5, 0.5]. -/
theorem c6_witness :
    ∃ lines, joint_block wSeg "base" = some lines ∧
      (∀ a0 a1 a2, wSeg.joint.axis = some (.list [a0, a1, a2]) →
        axisLine a0 a1 a2 ∈ lines) ∧
      ((∃ a0 a1 a2, axisLine a0 a1 a2 ∈ lines) ↔ wSeg.joint.axis.isSome = true) ∧
      (∀ l0 l1, wSeg.joint.limits = some (.list [l0, l1]) → limitLine l0 l1 ∈ lines) ∧
      ((∃ l0 l1, limitLine l0 l1 ∈ lines) ↔
        ∃ l0 l1, wSeg.joint.limits = some (.list [l0, l1])) :=
  c6_axis_and_limit_emission wSeg "base"
    (Or.inr ⟨.num (.int 0), .num (.int 0), .num (.int 1), rfl⟩)

/-- C7: a body with no declared geometry gets the default box of size
(0.1, 0.1, 0.1) and the default color (0.5, 0.5, 0.5, 1.0); and every body
whose geometry declares no `visual_rgba` gets the default color
(0.5, 0.5, 0.5, 1.0) in its material element. -/
theorem c7_defaults (body : Body) :
    (body.geometry = none →
      generate_visual body = some
        ["    <visual>",
         "      <geometry>",
         "        <box size=\"0.1 0.1 0.1\"/>",
         "      </geometry>",
         "      <material name=\"mat_" ++ body.name ++ "\">",
         "        <color rgba=\"0.5 0.5 0.5 1.0\"/>",
         "      </material>",
         "    </visual>"]) ∧
    (∀ g gl, body.geometry = some g → g.visual_rgba = none →
      visual_geometry_lines g = some gl →
      generate_visual body = some
        ("    <visual>" :: gl ++
         ["      <material name=\"mat_" ++ body.name ++ "\">",
          "        <color rgba=\"0.5 0.5 0.5 1.0\"/>",
          "      </material>",
          "    </visual>"])) := by
  constructor
  · intro h
    have hbox : visual_geometry_lines defaultGeometry =
        some ["      <geometry>", "        <box size=\"0.1 0.1 0.1\"/>", "      </geometry>"] := by
      decide
    simp only [generate_visual, h, Option.getD_none, hbox]
    rfl
  · intro g gl hg hrgba hgl
    simp only [generate_visual, hg, Option.getD_some, hgl, hrgba, Option.getD_none]
    rfl

/-- A body with no geometry key at all. -/
def b7a : Body := ⟨"ball", .int 1, zeroI, none⟩

/-- A sphere geometry of radius 0.03 with no declared color, and a body
carrying it. -/
def sphereGeom : Geometry := ⟨some "sphere", some (.num (.float (mkRat 3 100))), none⟩

def b7b : Body := ⟨"tip", .int 1, zeroI, some sphereGeom⟩

/-- Witness for C7: the geometry-less body gets the default box and color;
the colorless sphere body gets the default color. -/
theorem c7_witness :
    generate_visual b7a = some
      ["    <visual>",
       "      <geometry>",
       "        <box size=\"0.1 0.1 0.1\"/>",
       "      </geometry>",
       "      <material name=\"mat_ball\">",
       "        <color rgba=\"0.5 0.5 0.5 1.0\"/>",
       "      </material>",
       "    </visual>"] ∧
    generate_visual b7b = some
      ["    <visual>",
       "      <geometry>",
       "        <sphere radius=\"0.03\"/>",
       "      </geometry>",
       "      <material name=\"mat_tip\">",
       "        <color rgba=\"0.5 0.5 0.5 1.0\"/>",
       "      </material>",
       "    </visual>"] := by
  constructor
  · exact (c7_defaults b7a).1 rfl
  · exact (c7_defaults b7b).2 sphereGeom
      ["      <geometry>", "        <sphere radius=\"0.03\"/>", "      </geometry>"]
      rfl rfl (by decide)

/-- C8: the emitted inertial block consists of exactly the mass and the six
stored tensor entries, each formatted from the stored value unmodified, and
the block does not depend on the body's geometry in any way. -/
theorem c8_inertial_verbatim (body : Body) :
    generate_inertial body =
      ["    <inertial>",
       "      <mass value=\"" ++ fmtNum body.mass ++ "\"/>",
       "      <inertia",
       "        ixx=\"" ++ fmtNum body.inertia.ixx ++ "\"",
       "        ixy=\"" ++ fmtNum body.inertia.ixy ++ "\"",
       "        ixz=\"" ++ fmtNum body.inertia.ixz ++ "\"",
       "        iyy=\"" ++ fmtNum body.inertia.iyy ++ "\"",
       "        iyz=\"" ++ fmtNum body.inertia.iyz ++ "\"",
       "        izz=\"" ++ fmtNum body.inertia.izz ++ "\"/>",
       "    </inertial>"] ∧
    ∀ g, generate_inertial ⟨body.name, body.mass, body.inertia, g⟩ = generate_inertial body :=
  ⟨rfl, fun _ => rfl⟩

/-- C9: export is a deterministic function of the spec: two runs on the
same input produce byte-identical documents. -/
theorem c9_deterministic (spec : RobotSpec) (out1 out2 : String)
    (h1 : exportDoc spec = some out1) (h2 : exportDoc spec = some out2) :
    out1 = out2 := by
  rw [h1] at h2
  exact Option.some.inj h2

def spec9 : RobotSpec := ⟨⟨"base", .int 5, zeroI, none⟩, []⟩

set_option maxRecDepth 8192

/-- Witness for C9 at a concrete spec. -/
theorem c9_witness : (exportDoc spec9).getD "" = (exportDoc spec9).getD "" :=
  c9_deterministic spec9 _ _ (by decide) (by decide)

/-- The section-8 example of the spec: root `base`, one segment `arm` with
declared parent `base` and a revolute joint with axis [0, 0, 1]. -/
def spec10 : RobotSpec :=
  ⟨⟨"base", .int 5, zeroI, none⟩,
   [⟨⟨"arm", .int 1, zeroI, none⟩,
     ⟨"revolute", some (.list [.num (.int 0), .num (.int 0), .num (.int 1)]), none⟩,
     some "base"⟩]⟩

/-- C10 counterexample: the claim says the root body's name appears only in
its link element.  On `spec10` the root name `base` also appears in the
segment's joint element — in the joint name `base_to_arm` and in the
parent-link attribute — so it is not confined to the link element. -/
theorem c10_counterexample :
    ((urdf_lines spec10).getD []).get? 1 = some "<robot name=\"golfer\">" ∧
    ((urdf_lines spec10).getD []).get? 3 = some "  <link name=\"base\">" ∧
    ((urdf_lines spec10).getD []).contains
      "  <joint name=\"base_to_arm\" type=\"revolute\">" = true ∧
    ((urdf_lines spec10).getD []).contains "    <parent link=\"base\"/>" = true := by
  decide

/-- C10 amended: the wrapper's name attribute is the fixed string `golfer`
for every input, independent of the root body's name, and the root body's
name appears in the root link element, not in the wrapper's name
attribute (when segments are present it also appears in their joint
elements, since every segment is attached to the root). -/
theorem c10_amended_wrapper_fixed (spec : RobotSpec) (lines : List String)
    (h : urdf_lines spec = some lines) :
    lines.get? 1 = some "<robot name=\"golfer\">" ∧
    lines.get? 3 = some ("  <link name=\"" ++ spec.root.name ++ "\">") := by
  unfold urdf_lines at h
  split at h
  · injection h with h
    subst h
    exact ⟨rfl, rfl⟩
  · exact Option.noConfusion h

/-- Witness for C10's amended claim at `spec10`. -/
theorem c10_witness :
    ((urdf_lines spec10).getD []).get? 1 = some "<robot name=\"golfer\">" ∧
    ((urdf_lines spec10).getD []).get? 3 =
      some ("  <link name=\"" ++ spec10.root.name ++ "\">") :=
  c10_amended_wrapper_fixed spec10 ((urdf_lines spec10).getD []) (by decide)

end Urdf
